import Mathlib

/-!
Shallow embedding of the real-time collaboration core of the BWC portal
backend: the workflow engines in `routers/task_management.py` and
`routers/approvals.py`, the chat endpoints in `routers/chat.py`, and the
connection registry / presence sweep in `routers/websocket.py`.

Conventions of the embedding:
* machine integers and timestamps are `Nat` (ids, clock readings);
* the SQLAlchemy session is a `DB` record of tables (lists of rows) plus a
  fresh-id counter; `db.commit()` of mutated ORM rows is an in-place
  replacement of the row with the matching primary key;
* an `HTTPException(status_code, detail)` is `HError`; a handler is a
  function into `Except HError (DB × result)`.  A raised exception aborts
  the request before `db.commit()`, so an `Except.error` outcome leaves the
  database as it was (all handlers below raise only before their first
  mutation is committed);
* an uncaught Python exception — in this code base the `AttributeError`
  raised by task_management.py\x27s UPPERCASE accesses to the
  lowercase-membered enums of models.py — aborts the request the same way
  and is surfaced by FastAPI as HTTP 500; embedded as
  `.error ⟨500, "AttributeError: <MEMBER>"⟩`;
* `datetime.now(timezone.utc)` is a `now : Nat` parameter (all calls inside
  one handler observe the same instant);
* a WebSocket session is an abstract session id (`Nat`); whether a
  transport send to a given session succeeds is an oracle
  `sendOk : Nat → Bool`; a Python function that falls off its end returns
  `None`, embedded as `(none : Option Bool)` where the spec expects a bool.
-/

namespace BWC

/-- `HTTPException(status_code=…, detail=…)`. -/
structure HError where
  status : Nat
  detail : String
deriving DecidableEq, Repr

/-- Python truthiness of an `Optional[str]` (`None` and `""` are falsy). -/
def strTruthy : Option String → Bool
  | none => false
  | some s => s ≠ ""

/-- `a or default` on an `Optional[str]` (Python `or`). -/
def orDefault (a : Option String) (dflt : String) : String :=
  match a with
  | some s => if s ≠ "" then s else dflt
  | none => dflt

deriving instance DecidableEq for Except

/-- Did the handler return normally (no HTTPException)? -/
def isOkE {α : Type} : Except HError α → Bool
  | .ok _ => true
  | .error _ => false

/-- The database state a successful handler committed, if any. -/
def okDB {α : Type} : Except HError (α × β) → Option α
  | .ok (db, _) => some db
  | .error _ => none

/-- The row a successful handler returned, if any. -/
def okVal {α β : Type} : Except HError (α × β) → Option β
  | .ok (_, v) => some v
  | .error _ => none

/-! ## Enumerations (models.py) -/

/-- `models.TaskStatus`. -/
inductive TaskStatus
  | new | received | on_process | pending | completed | loose_end
deriving DecidableEq, Repr

/-- `models.TaskAssignmentStatus`. -/
inductive TaskAssignmentStatus
  | pending_acceptance | accepted | rejected
  | discussion_requested | discussion_active | discussion_completed
deriving DecidableEq, Repr

/-- `models.MessageType`. -/
inductive MessageType
  | text | system | call_request | call_scheduled | call_completed
deriving DecidableEq, Repr

/-- `models.ConversationStatus`. -/
inductive ConversationStatus
  | active | completed | archived
deriving DecidableEq, Repr

/-- `models.ApprovalRequestType`. -/
inductive ApprovalRequestType
  | general | expense | task | project | leave | purchase
deriving DecidableEq, Repr

/-- `models.ApprovalStatus`. -/
inductive ApprovalStatus
  | pending | approved | rejected | discussion | cancelled
deriving DecidableEq, Repr

/-! ## Rows (models.py) -/

/-- `models.User` (the columns the collaboration core reads). -/
structure User where
  id : Nat
  email : String
  first_name : Option String
  surname : Option String
  role : String
  is_active : Bool
  is_online : Bool
  last_seen : Option Nat
deriving DecidableEq, Repr

/-- `models.User.full_name` property. -/
def User.full_name (u : User) : String :=
  if strTruthy u.first_name && strTruthy u.surname then
    u.first_name.getD "" ++ " " ++ u.surname.getD ""
  else if strTruthy u.first_name then u.first_name.getD ""
  else if strTruthy u.surname then u.surname.getD ""
  else u.email

/-- `models.Task` (the columns the assignment engine touches). -/
structure Task where
  id : Nat
  title : String
  owner_id : Nat
  created_by_id : Nat
  status : TaskStatus
deriving DecidableEq, Repr

/-- `models.TaskAssignment`. -/
structure TaskAssignment where
  id : Nat
  task_id : Nat
  assigned_by_id : Nat
  assigned_to_id : Nat
  assignment_status : TaskAssignmentStatus
  assigned_at : Nat
  response_at : Option Nat
  assignment_message : Option String
  response_message : Option String
  rejection_reason : Option String
  call_requested : Bool
  call_scheduled_at : Option Nat
  call_completed_at : Option Nat
  call_notes : Option String
deriving DecidableEq, Repr

/-- `models.TaskConversation`. -/
structure TaskConversation where
  id : Nat
  assignment_id : Nat
  status : ConversationStatus
  created_at : Nat
  completed_at : Option Nat
  completed_by_id : Option Nat
deriving DecidableEq, Repr

/-- `models.TaskMessage`. -/
structure TaskMessage where
  id : Nat
  conversation_id : Nat
  sender_id : Nat
  message_type : MessageType
  content : String
  sent_at : Nat
  read_at : Option Nat
  is_system_message : Bool
deriving DecidableEq, Repr

/-- `models.TaskNotification`. -/
structure TaskNotification where
  id : Nat
  user_id : Nat
  task_id : Nat
  assignment_id : Option Nat
  notification_type : String
  title : String
  message : String
  action_url : Option String
  is_read : Bool
  is_dismissed : Bool
  created_at : Nat
  read_at : Option Nat
deriving DecidableEq, Repr

/-- `models.ApprovalRequest`. -/
structure ApprovalRequest where
  id : Nat
  requester_id : Nat
  approver_id : Nat
  title : String
  description : String
  request_type : ApprovalRequestType
  status : ApprovalStatus
  created_at : Nat
  updated_at : Nat
  responded_at : Option Nat
  response_message : Option String
deriving DecidableEq, Repr

/-- `models.ApprovalNotification`. -/
structure ApprovalNotification where
  id : Nat
  user_id : Nat
  approval_request_id : Nat
  notification_type : String
  title : String
  message : String
  is_read : Bool
  created_at : Nat
  read_at : Option Nat
deriving DecidableEq, Repr

/-- `models.ChatConversation`. -/
structure ChatConversation where
  id : Nat
  participant1_id : Nat
  participant2_id : Nat
  created_at : Nat
  updated_at : Nat
  last_message_at : Option Nat
  last_message_preview : Option String
deriving DecidableEq, Repr

/-- `models.ChatMessage`. -/
structure ChatMessage where
  id : Nat
  conversation_id : Nat
  sender_id : Nat
  content : String
  message_type : String
  sent_at : Nat
  read_at : Option Nat
  is_system_message : Bool
  approval_request_id : Option Nat
deriving DecidableEq, Repr

/-! ## The database session -/

/-- The persisted tables the collaboration core touches, plus an
autoincrement counter handing out fresh primary keys on flush. -/
structure DB where
  users : List User
  tasks : List Task
  task_assignments : List TaskAssignment
  task_conversations : List TaskConversation
  task_messages : List TaskMessage
  task_notifications : List TaskNotification
  approval_requests : List ApprovalRequest
  approval_notifications : List ApprovalNotification
  chat_conversations : List ChatConversation
  chat_messages : List ChatMessage
  next_id : Nat
deriving DecidableEq, Repr

/-- `db.query(models.User).filter(models.User.id == uid).first()`. -/
def findUser (db : DB) (uid : Nat) : Option User :=
  db.users.find? (fun u => u.id == uid)

/-- `db.query(models.Task).filter(models.Task.id == tid).first()`. -/
def findTask (db : DB) (tid : Nat) : Option Task :=
  db.tasks.find? (fun t => t.id == tid)

/-- `db.query(models.TaskAssignment).filter(id == aid).first()`. -/
def findAssignment (db : DB) (aid : Nat) : Option TaskAssignment :=
  db.task_assignments.find? (fun a => a.id == aid)

/-- `db.query(models.TaskConversation).filter(assignment_id == aid).first()`. -/
def findConversationByAssignment (db : DB) (aid : Nat) : Option TaskConversation :=
  db.task_conversations.find? (fun c => c.assignment_id == aid)

/-- `db.query(models.ApprovalRequest).filter(id == rid).first()`. -/
def findApprovalRequest (db : DB) (rid : Nat) : Option ApprovalRequest :=
  db.approval_requests.find? (fun r => r.id == rid)

/-- The two-orientation lookup of a direct conversation between users
`a` and `b` used by approvals.py and chat.py. -/
def findChatConversationBetween (db : DB) (a b : Nat) : Option ChatConversation :=
  db.chat_conversations.find? (fun c =>
    (c.participant1_id == a && c.participant2_id == b) ||
    (c.participant1_id == b && c.participant2_id == a))

/-- `db.query(models.ChatConversation).filter(id == cid).first()`. -/
def findChatConversation (db : DB) (cid : Nat) : Option ChatConversation :=
  db.chat_conversations.find? (fun c => c.id == cid)

/-- Committing a mutated ORM row (here an `ApprovalRequest`): replace the
row with this primary key. -/
def updateApprovalRequest (db : DB) (r : ApprovalRequest) : DB :=
  { db with approval_requests :=
      db.approval_requests.map (fun x => if x.id == r.id then r else x) }

/-- Committing a mutated `ChatConversation` row. -/
def updateChatConversation (db : DB) (c : ChatConversation) : DB :=
  { db with chat_conversations :=
      db.chat_conversations.map (fun x => if x.id == c.id then c else x) }

/-! ## Task assignment engine (routers/task_management.py)

task_management.py addresses the workflow enums of models.py with
UPPERCASE member names (`models.TaskAssignmentStatus.PENDING_ACCEPTANCE`
at lines 51-53/241/252/263/270, `models.TaskStatus.RECEIVED` at 257,
`models.ConversationStatus.COMPLETED`/`ACTIVE` at 464/481,
`models.MessageType.TEXT`/`SYSTEM` at 285/475), but the members declared
in models.py 9-100 are all lowercase (`pending_acceptance`, `received`,
`completed`, …; tasks.py 130 uses the lowercase member correctly).
Python enum member access is case-sensitive, so each of these accesses
raises `AttributeError` the moment the line runs; FastAPI surfaces the
uncaught exception as HTTP 500 and nothing is committed.  The embedding
models the first such access of each handler as
`.error ⟨500, "AttributeError: <MEMBER>"⟩`; everything after it in the
handler body is dead code and is not modelled. -/

/-- `POST /task-management/assign` (`assign_task`, task_management.py
16-96).  The 404/403/404 validations run; then building the
duplicate-guard query evaluates
`models.TaskAssignmentStatus.PENDING_ACCEPTANCE` (line 51), which raises
`AttributeError` — so every permitted call fails with 500 and no
assignment or notification is ever created. -/
def assign_task (db : DB) (current_user : User) (task_id assigned_to_id : Nat)
    (_assignment_message : Option String) (_now : Nat) :
    Except HError (DB × TaskAssignment) :=
  match findTask db task_id with
  | none => .error ⟨404, "Task not found"⟩
  | some task =>
  if ¬ (current_user.role ∈ ["admin", "Manager", "Head"] ∨
        task.owner_id = current_user.id ∨
        task.created_by_id = current_user.id) then
    .error ⟨403, "Not authorized to assign this task"⟩
  else match findUser db assigned_to_id with
  | none => .error ⟨404, "Assignee not found"⟩
  | some _assignee =>
  .error ⟨500, "AttributeError: PENDING_ACCEPTANCE"⟩

/-- `POST /task-management/assignments/\x7bid\x7d/respond`
(`respond_to_assignment`, task_management.py 221-314).  The 404 and 403
checks run; then line 241 compares against
`models.TaskAssignmentStatus.PENDING_ACCEPTANCE`, which raises
`AttributeError` — every counterpart call fails with 500.  The 400
already-responded guard, the accept/reject/discuss dispatch and the
notification insert (lines 241-305) are unreachable. -/
def respond_to_assignment (db : DB) (current_user : User) (assignment_id : Nat)
    (_action : String) (_message : Option String)
    (_rejection_reason : Option String) (_now : Nat) :
    Except HError (DB × TaskAssignment) :=
  match findAssignment db assignment_id with
  | none => .error ⟨404, "Assignment not found"⟩
  | some assignment =>
  if assignment.assigned_to_id ≠ current_user.id then
    .error ⟨403, "Not authorized to respond to this assignment"⟩
  else
    .error ⟨500, "AttributeError: PENDING_ACCEPTANCE"⟩

/-- `POST /task-management/conversations/\x7bid\x7d/complete`
(`complete_conversation`, task_management.py 436-494).  The two 404
checks and the 403 party check run; then `complete` evaluates
`models.ConversationStatus.COMPLETED` (line 464) and `reopen` evaluates
`models.ConversationStatus.ACTIVE` (line 481), each raising
`AttributeError` — both actions fail with 500 and commit nothing.  Any
other action string touches no enum: the handler commits an unmodified
session and returns the conversation unchanged. -/
def complete_conversation (db : DB) (current_user : User)
    (assignment_id : Nat) (action : String) (_final_message : Option String)
    (_now : Nat) : Except HError (DB × TaskConversation) :=
  match findAssignment db assignment_id with
  | none => .error ⟨404, "Assignment not found"⟩
  | some assignment =>
  match findConversationByAssignment db assignment_id with
  | none => .error ⟨404, "Conversation not found"⟩
  | some conversation =>
  if ¬ (assignment.assigned_to_id = current_user.id ∨
        assignment.assigned_by_id = current_user.id) then
    .error ⟨403, "Not authorized to complete this conversation"⟩
  else if action = "complete" then
    .error ⟨500, "AttributeError: COMPLETED"⟩
  else if action = "reopen" then
    .error ⟨500, "AttributeError: ACTIVE"⟩
  else
    .ok (db, conversation)

/-- `GET /task-management/notifications` (`get_task_notifications`,
task_management.py 629-647): filter to the caller, optionally unread-only,
order newest-first by `created_at`, truncate to `limit`. -/
def get_task_notifications (db : DB) (current_user_id : Nat)
    (unread_only : Bool) (limit : Nat) : List TaskNotification :=
  let q := db.task_notifications.filter (fun n => n.user_id == current_user_id)
  let q := if unread_only then q.filter (fun n => n.is_read == false) else q
  (q.insertionSort (fun a b => b.created_at ≤ a.created_at)).take limit

/-! ## Approval engine (routers/approvals.py) -/

/-- `POST /approvals/` (`create_approval_request`, approvals.py 16-128).
The post-commit `asyncio.create_task(notify_approval_request …)` fires only
after the record is committed; the delivery attempt itself lives in the
registry model below and cannot fail this handler. -/
def create_approval_request (db : DB) (current_user : User)
    (approver_id : Nat) (title description : String)
    (request_type : ApprovalRequestType) (now : Nat) :
    Except HError (DB × ApprovalRequest) :=
  match db.users.find? (fun u => u.id == approver_id && u.is_active) with
  | none => .error ⟨404, "Approver not found"⟩
  | some _approver =>
  if approver_id = current_user.id then
    .error ⟨400, "Cannot request approval from yourself"⟩
  else
  let db_request : ApprovalRequest :=
    { id := db.next_id, requester_id := current_user.id,
      approver_id := approver_id, title := title,
      description := description, request_type := request_type,
      status := .pending, created_at := now, updated_at := now,
      responded_at := none, response_message := none }
  let db := { db with
    approval_requests := db.approval_requests ++ [db_request],
    next_id := db.next_id + 1 }
  let notification : ApprovalNotification :=
    { id := db.next_id, user_id := approver_id,
      approval_request_id := db_request.id,
      notification_type := "new_request",
      title := "New Approval Request: " ++ title,
      message := current_user.full_name ++
        " is requesting approval for: " ++ description.take 100 ++ "...",
      is_read := false, created_at := now, read_at := none }
  let db := { db with
    approval_notifications := db.approval_notifications ++ [notification],
    next_id := db.next_id + 1 }
  let (db, existing_conversation) :=
    match findChatConversationBetween db current_user.id approver_id with
    | some c => (db, c)
    | none =>
        let c : ChatConversation :=
          { id := db.next_id,
            participant1_id := min current_user.id approver_id,
            participant2_id := max current_user.id approver_id,
            created_at := now, updated_at := now,
            last_message_at := none, last_message_preview := none }
        ({ db with
           chat_conversations := db.chat_conversations ++ [c],
           next_id := db.next_id + 1 }, c)
  let approval_message : ChatMessage :=
    { id := db.next_id, conversation_id := existing_conversation.id,
      sender_id := current_user.id,
      content := "📋 **Approval Request: " ++ title ++ "**\n\n" ++ description,
      message_type := "approval_request", sent_at := now, read_at := none,
      is_system_message := true, approval_request_id := some db_request.id }
  let db := { db with
    chat_messages := db.chat_messages ++ [approval_message],
    next_id := db.next_id + 1 }
  let existing_conversation :=
    { existing_conversation with
      last_message_at := some now,
      last_message_preview := some ("Approval Request: " ++ title),
      updated_at := now }
  let db := updateChatConversation db existing_conversation
  .ok (db, db_request)

/-- `POST /approvals/\x7bid\x7d/respond` (`respond_to_approval_request`,
approvals.py 206-302).  Note: the handler validates only the approver
identity and the action string — it performs no check of the request's
current status. -/
def respond_to_approval_request (db : DB) (current_user : User)
    (request_id : Nat) (action : String) (response_message : Option String)
    (now : Nat) : Except HError (DB × ApprovalRequest) :=
  match findApprovalRequest db request_id with
  | none => .error ⟨404, "Approval request not found"⟩
  | some request =>
  if request.approver_id ≠ current_user.id then
    .error ⟨403, "Only the approver can respond to this request"⟩
  else if ¬ (action = "approve" ∨ action = "reject" ∨ action = "discussion")
  then
    .error ⟨400,
      "Invalid action. Must be \x27approve\x27, \x27reject\x27, or \x27discussion\x27"⟩
  else
  let request :=
    { request with
      responded_at := some now, updated_at := now,
      response_message := response_message }
  let (request, notification_type, notification_title, notification_message) :=
    if action = "approve" then
      ({ request with status := .approved }, "approved",
       "Request Approved: " ++ request.title,
       "Your approval request has been approved by " ++ current_user.full_name)
    else if action = "reject" then
      ({ request with status := .rejected }, "rejected",
       "Request Rejected: " ++ request.title,
       "Your approval request has been rejected by " ++ current_user.full_name)
    else
      ({ request with status := .discussion }, "discussion",
       "Discussion Requested: " ++ request.title,
       current_user.full_name ++ " wants to discuss your approval request")
  let notification : ApprovalNotification :=
    { id := db.next_id, user_id := request.requester_id,
      approval_request_id := request.id,
      notification_type := notification_type,
      title := notification_title, message := notification_message,
      is_read := false, created_at := now, read_at := none }
  let db := { db with
    approval_notifications := db.approval_notifications ++ [notification],
    next_id := db.next_id + 1 }
  let db :=
    if action = "discussion" then
      match findChatConversationBetween db request.requester_id
          current_user.id with
      | some conversation =>
          let discussion_message : ChatMessage :=
            { id := db.next_id, conversation_id := conversation.id,
              sender_id := current_user.id,
              content := "💬 Let\x27s discuss the approval request: **" ++
                request.title ++ "**\n\n" ++
                orDefault response_message
                  "I have some questions about this request.",
              message_type := "system", sent_at := now, read_at := none,
              is_system_message := true, approval_request_id := none }
          let db := { db with
            chat_messages := db.chat_messages ++ [discussion_message],
            next_id := db.next_id + 1 }
          let conversation :=
            { conversation with
              last_message_at := some now,
              last_message_preview := some "Discussion requested for approval",
              updated_at := now }
          updateChatConversation db conversation
      | none => db
    else db
  let db := updateApprovalRequest db request
  .ok (db, request)

/-! ## Chat endpoints (routers/chat.py) -/

/-- `GET /chat/conversations/\x7bid\x7d` (`get_conversation`, chat.py
67-104): access check, then mark the other party\x27s unread messages read. -/
def chat_get_conversation (db : DB) (current_user : User)
    (conversation_id : Nat) (now : Nat) :
    Except HError (DB × ChatConversation) :=
  match findChatConversation db conversation_id with
  | none => .error ⟨404, "Conversation not found"⟩
  | some conversation =>
  if ¬ (conversation.participant1_id = current_user.id ∨
        conversation.participant2_id = current_user.id) then
    .error ⟨403, "Not authorized to view this conversation"⟩
  else
  let db := { db with
    chat_messages := db.chat_messages.map (fun m =>
      if m.conversation_id == conversation_id &&
         m.sender_id != current_user.id && m.read_at == none then
        { m with read_at := some now }
      else m) }
  .ok (db, conversation)

/-- `POST /chat/conversations/\x7buser_id\x7d` (`start_conversation`,
chat.py 107-151). -/
def start_conversation (db : DB) (current_user : User) (user_id : Nat)
    (now : Nat) : Except HError (DB × ChatConversation) :=
  if user_id = current_user.id then
    .error ⟨400, "Cannot start conversation with yourself"⟩
  else match findUser db user_id with
  | none => .error ⟨404, "User not found"⟩
  | some _target =>
  match findChatConversationBetween db current_user.id user_id with
  | some existing_conversation =>
      chat_get_conversation db current_user existing_conversation.id now
  | none =>
      let new_conversation : ChatConversation :=
        { id := db.next_id,
          participant1_id := min current_user.id user_id,
          participant2_id := max current_user.id user_id,
          created_at := now, updated_at := now,
          last_message_at := none, last_message_preview := none }
      let db := { db with
        chat_conversations := db.chat_conversations ++ [new_conversation],
        next_id := db.next_id + 1 }
      chat_get_conversation db current_user new_conversation.id now

/-! ## Connection registry and presence sweep (routers/websocket.py) -/

/-- The in-memory `ConnectionManager`: per-user WebSocket sessions and
per-user last heartbeat instant, with the presence grace window. -/
structure ConnectionManager where
  active_connections : List (Nat × List Nat)
  last_heartbeat : List (Nat × Nat)
  grace_seconds : Nat
deriving DecidableEq, Repr

/-- Python `user_id in dict` / `dict[user_id]` on the connection map. -/
def dictGet (d : List (Nat × List Nat)) (k : Nat) : Option (List Nat) :=
  (d.find? (fun p => p.1 == k)).map (·.2)

/-- Replacing a key\x27s value in the connection map. -/
def dictSet (d : List (Nat × List Nat)) (k : Nat) (v : List Nat) :
    List (Nat × List Nat) :=
  d.map (fun p => if p.1 == k then (k, v) else p)

/-- `del dict[k]` on the connection map. -/
def dictDel (d : List (Nat × List Nat)) (k : Nat) : List (Nat × List Nat) :=
  d.filter (fun p => p.1 != k)

/-- `ConnectionManager.send_personal_message` (websocket.py 49-62): attempt
a send on every session of the user, collect the sessions whose send raised,
remove them, and drop the user\x27s entry if it became empty.  Every `send`
is wrapped in `try/except`, so no transport error escapes; the Python
function has no `return` statement, so its value is `None` — embedded as
`(none : Option Bool)`. -/
def send_personal_message (m : ConnectionManager) (sendOk : Nat → Bool)
    (user_id : Nat) : ConnectionManager × Option Bool :=
  match dictGet m.active_connections user_id with
  | none => (m, none)
  | some conns =>
      let remaining := conns.filter sendOk
      let m :=
        if remaining.isEmpty then
          { m with active_connections := dictDel m.active_connections user_id }
        else
          { m with active_connections :=
              dictSet m.active_connections user_id remaining }
      (m, none)

/-- The sessions of `user_id` that actually received the payload during one
`send_personal_message` call (every listed session is attempted; a session
receives it iff its transport send succeeds). -/
def delivered_sessions (m : ConnectionManager) (sendOk : Nat → Bool)
    (user_id : Nat) : List Nat :=
  ((dictGet m.active_connections user_id).getD []).filter sendOk

/-- `ConnectionManager.broadcast_to_all` (websocket.py 68-70). -/
def broadcast_to_all (m : ConnectionManager) (sendOk : Nat → Bool) :
    ConnectionManager :=
  (m.active_connections.map (·.1)).foldl
    (fun acc uid => (send_personal_message acc sendOk uid).1) m

/-- `ConnectionManager.disconnect` (websocket.py 40-47): remove the session
from the user\x27s list and drop the emptied entry.  The `db` session is a
parameter of the Python method but is never touched — in particular the
user\x27s `is_online` / `last_seen` row is left alone ("Do not mark offline
immediately; rely on grace timeout"), and `last_heartbeat` keeps its entry. -/
def disconnect (m : ConnectionManager) (websocket user_id : Nat) (db : DB) :
    ConnectionManager × DB :=
  match dictGet m.active_connections user_id with
  | none => (m, db)
  | some conns =>
      let conns := conns.erase websocket
      if conns.isEmpty then
        ({ m with
           active_connections := dictDel m.active_connections user_id }, db)
      else
        ({ m with
           active_connections :=
             dictSet m.active_connections user_id conns }, db)

/-- One iteration of the second loop of `sweep_offline_users`: look the user
up, and if the row exists and is online, flip it offline and stamp
`last_seen := now` (then broadcast the presence change). -/
def sweepMark (now : Nat) (sendOk : Nat → Bool) :
    (DB × ConnectionManager) → Nat → (DB × ConnectionManager)
  | (db, m), uid =>
    match findUser db uid with
    | some user =>
        if user.is_online then
          ({ db with users := db.users.map (fun u =>
              if u.id == uid then
                { user with is_online := false, last_seen := some now }
              else u) },
           broadcast_to_all m sendOk)
        else (db, m)
    | none => (db, m)

/-- `sweep_offline_users` (websocket.py 130-142): collect every tracked user
whose heartbeat is older than `grace_seconds`, then mark each of them
offline.  The loop consults only `last_heartbeat` — `active_connections`
plays no part in the staleness test. -/
def sweep_offline_users (m : ConnectionManager) (db : DB) (now : Nat)
    (sendOk : Nat → Bool) : DB × ConnectionManager :=
  let to_mark_offline :=
    (m.last_heartbeat.filter
      (fun p => now - p.2 > m.grace_seconds)).map (·.1)
  to_mark_offline.foldl (sweepMark now sendOk) (db, m)

/-! ## Concrete fixtures used by witnesses and counterexamples -/

/-- A transport oracle under which every send succeeds. -/
def allOk : Nat → Bool := fun _ => true

/-- Fixture user 1. -/
def uAlice : User :=
  { id := 1, email := "alice@bwc.example", first_name := some "Alice",
    surname := some "Argyriou", role := "user", is_active := true,
    is_online := true, last_seen := some 0 }

/-- Fixture user 2. -/
def uBob : User :=
  { id := 2, email := "bob@bwc.example", first_name := some "Bob",
    surname := some "Balafas", role := "user", is_active := true,
    is_online := true, last_seen := some 0 }

/-- An empty database with the id counter at 100. -/
def emptyDB : DB :=
  { users := [uAlice, uBob], tasks := [], task_assignments := [],
    task_conversations := [], task_messages := [], task_notifications := [],
    approval_requests := [], approval_notifications := [],
    chat_conversations := [], chat_messages := [], next_id := 100 }

/-! ## Registry lemmas -/

/-- Deleting a key makes its lookup fail. -/
lemma dictGet_dictDel (d : List (Nat × List Nat)) (k : Nat) :
    dictGet (dictDel d k) k = none := by
  have hfind : (dictDel d k).find? (fun p => p.1 == k) = none := by
    apply List.find?_eq_none.mpr
    intro p hp
    have hmem := List.of_mem_filter hp
    simpa using hmem
  simp [dictGet, hfind]

/-- Overwriting a present key makes its lookup return the new value. -/
lemma dictGet_dictSet (d : List (Nat × List Nat)) (k : Nat) (v : List Nat)
    (h : (dictGet d k).isSome) : dictGet (dictSet d k v) k = some v := by
  induction d with
  | nil => simp [dictGet] at h
  | cons a t ih =>
    by_cases hak : a.1 = k
    · simp [dictGet, dictSet, List.find?_cons, hak]
    · have h' : (dictGet t k).isSome := by
        simpa [dictGet, List.find?_cons, hak] using h
      have := ih h'
      simpa [dictGet, dictSet, List.find?_cons, hak] using this

/-- Claim C9: unregistering a connection — even the user\x27s last one —
returns the database untouched (so `is_online` and `last_seen` keep their
values until a sweep runs) and leaves the heartbeat map and grace window
alone; only `active_connections` changes. -/
theorem disconnect_does_not_touch_presence (m : ConnectionManager)
    (websocket user_id : Nat) (db : DB) :
    (disconnect m websocket user_id db).2 = db ∧
    (disconnect m websocket user_id db).1.last_heartbeat = m.last_heartbeat ∧
    (disconnect m websocket user_id db).1.grace_seconds = m.grace_seconds := by
  cases hg : dictGet m.active_connections user_id with
  | none => simp [disconnect, hg]
  | some conns =>
    by_cases he : (conns.erase websocket).isEmpty = true <;>
      simp [disconnect, hg, he]

/-- Claim C4 (amended): `send_personal_message` attempts delivery on every
live session of the user (a session survives iff its send succeeded, so the
registry afterwards holds exactly the successful sessions, and the entry is
dropped when none survive), never propagates a transport error, and returns
Python `None` — not a delivered flag — on every path, including the
no-session path. -/
theorem send_personal_message_best_effort :
    (∀ (m : ConnectionManager) (sendOk : Nat → Bool) (user_id : Nat),
      dictGet m.active_connections user_id = none →
      send_personal_message m sendOk user_id = (m, none)) ∧
    (∀ (m : ConnectionManager) (sendOk : Nat → Bool) (user_id : Nat)
      (conns : List Nat),
      dictGet m.active_connections user_id = some conns →
      (send_personal_message m sendOk user_id).2 = none ∧
      dictGet (send_personal_message m sendOk user_id).1.active_connections
          user_id =
        (if (conns.filter sendOk).isEmpty then none
         else some (conns.filter sendOk)) ∧
      (send_personal_message m sendOk user_id).1.last_heartbeat =
        m.last_heartbeat) := by
  constructor
  · intro m sendOk user_id h
    simp [send_personal_message, h]
  · intro m sendOk user_id conns h
    by_cases he : (conns.filter sendOk).isEmpty
    · simp [send_personal_message, h, he, dictGet_dictDel]
    · have hs : (dictGet m.active_connections user_id).isSome := by
        simp [h]
      simp [send_personal_message, h, he, dictGet_dictSet _ _ _ hs]

/-- Registry and heartbeat state for the C4 scenarios: user 1 has one live
session (id 10). -/
def mC4 : ConnectionManager :=
  { active_connections := [(1, [10])], last_heartbeat := [(1, 0)],
    grace_seconds := 60 }

/-- Claim C4, counterexample to the claim as stated: with one live session
whose send succeeds, the session receives the payload, yet the call does not
return `true` (it returns `None`): "returns true iff at least one session
received it" fails on the code. -/
theorem send_personal_message_no_delivered_flag :
    delivered_sessions mC4 allOk 1 ≠ [] ∧
    (send_personal_message mC4 allOk 1).2 ≠ some true := by decide

/-- Claim C4, witness: the amended theorem applied to the concrete registry
`mC4`. -/
theorem send_personal_message_best_effort_witness :
    dictGet mC4.active_connections 1 = some [10] ∧
    ((send_personal_message mC4 allOk 1).2 = none ∧
      dictGet (send_personal_message mC4 allOk 1).1.active_connections 1 =
        (if ([10].filter allOk).isEmpty then none
         else some ([10].filter allOk)) ∧
      (send_personal_message mC4 allOk 1).1.last_heartbeat =
        mC4.last_heartbeat) :=
  ⟨by decide, send_personal_message_best_effort.2 mC4 allOk 1 [10] (by decide)⟩

/-! ## Sweep lemmas (claim C2) -/

/-- Replacing every row whose id is `v` leaves lookups of `uid ≠ v`
unchanged, provided the replacement row also carries id `v`. -/
lemma findUser_map_replace_ne (users : List User) (uid v : Nat) (new : User)
    (hnew : new.id = v) (hne : v ≠ uid) :
    (users.map (fun u => if u.id == v then new else u)).find?
      (fun u => u.id == uid) = users.find? (fun u => u.id == uid) := by
  induction users with
  | nil => rfl
  | cons a t ih =>
    rw [List.map_cons]
    by_cases hav : a.id = v
    · have hrepl : (if (a.id == v) then new else a) = new := by simp [hav]
      rw [hrepl, List.find?_cons_of_neg _ (by simp [hnew]; exact hne),
        List.find?_cons_of_neg _ (by simp [hav]; exact hne), ih]
    · have hrepl : (if (a.id == v) then new else a) = a := by simp [hav]
      rw [hrepl]
      by_cases hau : a.id = uid
      · rw [List.find?_cons_of_pos _ (by simp [hau]),
          List.find?_cons_of_pos _ (by simp [hau])]
      · rw [List.find?_cons_of_neg _ (by simp [hau]),
          List.find?_cons_of_neg _ (by simp [hau]), ih]

/-- Replacing every row whose id is `uid` by a row that still carries id
`uid` makes the lookup of `uid` return the replacement, provided the lookup
succeeded before. -/
lemma findUser_map_replace_eq (users : List User) (uid : Nat) (new : User)
    (hnew : new.id = uid) (h : (users.find? (fun u => u.id == uid)).isSome) :
    (users.map (fun u => if u.id == uid then new else u)).find?
      (fun u => u.id == uid) = some new := by
  induction users with
  | nil => simp at h
  | cons a t ih =>
    rw [List.map_cons]
    by_cases hau : a.id = uid
    · have hrepl : (if (a.id == uid) then new else a) = new := by simp [hau]
      rw [hrepl, List.find?_cons_of_pos _ (by simp [hnew])]
    · have hrepl : (if (a.id == uid) then new else a) = a := by simp [hau]
      have h' : (t.find? (fun u => u.id == uid)).isSome = true := by
        rw [List.find?_cons_of_neg _ (by simp [hau])] at h
        exact h
      rw [hrepl, List.find?_cons_of_neg _ (by simp [hau]), ih h']

/-- A sweep iteration for a different user does not change this user\x27s
row. -/
lemma sweepMark_findUser_ne (db : DB) (m : ConnectionManager)
    (now v uid : Nat) (sendOk : Nat → Bool) (hne : v ≠ uid) :
    findUser (sweepMark now sendOk (db, m) v).1 uid = findUser db uid := by
  cases hf : findUser db v with
  | none => simp [sweepMark, hf]
  | some user =>
    have hid : user.id = v := by
      have := List.find?_some hf
      simpa using this
    by_cases ho : user.is_online = true
    · have hrepl := findUser_map_replace_ne db.users uid v
        { user with is_online := false, last_seen := some now } hid hne
      simp only [sweepMark, hf, ho, if_true]
      simpa [findUser] using hrepl
    · simp [sweepMark, hf, ho]

/-- A sweep iteration for this user, when the row is online, flips it
offline and stamps `last_seen`. -/
lemma sweepMark_marks (db : DB) (m : ConnectionManager) (now uid : Nat)
    (sendOk : Nat → Bool) (u : User) (hf : findUser db uid = some u)
    (ho : u.is_online = true) :
    findUser (sweepMark now sendOk (db, m) uid).1 uid =
      some { u with is_online := false, last_seen := some now } := by
  have hid : u.id = uid := by
    have := List.find?_some hf
    simpa using this
  have hs : (db.users.find? (fun x => x.id == uid)).isSome = true := by
    have : db.users.find? (fun x => x.id == uid) = some u := hf
    simp [this]
  have hrepl := findUser_map_replace_eq db.users uid
    { u with is_online := false, last_seen := some now } hid hs
  simp only [sweepMark, hf, ho, if_true]
  simpa [findUser] using hrepl

/-- Once a user\x27s row is offline, the remaining sweep iterations leave it
alone. -/
lemma foldl_sweepMark_preserves (l : List Nat) (db : DB)
    (m : ConnectionManager) (now uid : Nat) (sendOk : Nat → Bool) (u : User)
    (hf : findUser db uid = some u) (ho : u.is_online = false) :
    findUser ((l.foldl (sweepMark now sendOk) (db, m)).1) uid = some u := by
  induction l generalizing db m with
  | nil => simpa using hf
  | cons v t ih =>
    rw [List.foldl_cons]
    by_cases hv : v = uid
    · subst hv
      have hstep : sweepMark now sendOk (db, m) v = (db, m) := by
        simp [sweepMark, hf, ho]
      rw [hstep]
      exact ih db m hf
    · cases hstep : sweepMark now sendOk (db, m) v with
      | mk db2 m2 =>
        have hkeep : findUser db2 uid = some u := by
          have := sweepMark_findUser_ne db m now v uid sendOk hv
          rw [hstep] at this
          simpa [this] using hf
        exact ih db2 m2 hkeep

/-- If this user appears in the staleness worklist and is online, the sweep
fold flips the row offline regardless of anything else. -/
lemma foldl_sweepMark_marks (l : List Nat) (db : DB) (m : ConnectionManager)
    (now uid : Nat) (sendOk : Nat → Bool) (u : User) (hmem : uid ∈ l)
    (hf : findUser db uid = some u) (ho : u.is_online = true) :
    findUser ((l.foldl (sweepMark now sendOk) (db, m)).1) uid =
      some { u with is_online := false, last_seen := some now } := by
  induction l generalizing db m u with
  | nil => cases hmem
  | cons v t ih =>
    rw [List.foldl_cons]
    by_cases hv : v = uid
    · subst hv
      cases hstep : sweepMark now sendOk (db, m) v with
      | mk db2 m2 =>
        have hmark := sweepMark_marks db m now v sendOk u hf ho
        rw [hstep] at hmark
        exact foldl_sweepMark_preserves t db2 m2 now v sendOk _ hmark rfl
    · have hmem2 : uid ∈ t := by
        rcases List.mem_cons.mp hmem with h | h
        · exact absurd h.symm hv
        · exact h
      cases hstep : sweepMark now sendOk (db, m) v with
      | mk db2 m2 =>
        have hkeep : findUser db2 uid = some u := by
          have := sweepMark_findUser_ne db m now v uid sendOk hv
          rw [hstep] at this
          simpa [this] using hf
        exact ih db2 m2 u hmem2 hkeep ho

/-- Claim C2 (amended): the sweep marks offline every tracked user whose
heartbeat is older than `grace_seconds` and whose row is online — the
staleness test consults only `last_heartbeat`, so live connections give no
protection; nothing about `active_connections` appears among the
hypotheses. -/
theorem sweep_ignores_live_connections (m : ConnectionManager) (db : DB)
    (now uid last : Nat) (u : User) (sendOk : Nat → Bool)
    (hhb : (uid, last) ∈ m.last_heartbeat)
    (hstale : now - last > m.grace_seconds)
    (hf : findUser db uid = some u) (ho : u.is_online = true) :
    findUser (sweep_offline_users m db now sendOk).1 uid =
      some { u with is_online := false, last_seen := some now } := by
  unfold sweep_offline_users
  apply foldl_sweepMark_marks _ _ _ _ _ _ _ _ hf ho
  exact List.mem_map.mpr
    ⟨(uid, last), List.mem_filter.mpr ⟨hhb, by simpa using hstale⟩, rfl⟩

/-- Registry used by the C2 scenarios: user 1 holds a live session (id 10)
but a heartbeat last seen at instant 0 with a 60-second grace window. -/
def mC2 : ConnectionManager :=
  { active_connections := [(1, [10])], last_heartbeat := [(1, 0)],
    grace_seconds := 60 }

/-- Claim C2, counterexample to the claim as stated: user 1 has a live
connection registered, yet the sweep at instant 100 marks them offline —
the sweep never consults the connection set. -/
theorem sweep_marks_connected_user_offline :
    dictGet mC2.active_connections 1 = some [10] ∧
    (findUser (sweep_offline_users mC2 emptyDB 100 allOk).1 1).map
      User.is_online = some false := by decide

/-- Claim C2, witness: the amended theorem applied to the concrete registry
`mC2` and the fixture database. -/
theorem sweep_ignores_live_connections_witness :
    (1, 0) ∈ mC2.last_heartbeat ∧ 100 - 0 > mC2.grace_seconds ∧
    findUser emptyDB 1 = some uAlice ∧ uAlice.is_online = true ∧
    findUser (sweep_offline_users mC2 emptyDB 100 allOk).1 1 =
      some { uAlice with is_online := false, last_seen := some 100 } :=
  ⟨by decide, by decide, by decide, by decide,
    sweep_ignores_live_connections mC2 emptyDB 100 1 0 uAlice allOk
      (by decide) (by decide) (by decide) (by decide)⟩

/-! ## Respond validation (claims C1, C8, C3) -/

/-- Claim C1 (amended): neither engine rejects a second response with
`InvalidState`.  In the assignment engine every counterpart respond call —
second or first — fails with 500 (the `AttributeError` raised by the
mis-cased status comparison at task_management.py line 241) before any
commit, so an already-responded assignment is indeed left unchanged, but
by a crash, not by the claimed `InvalidState` rejection.
`respond_to_approval_request` performs no state check at all: a second
respond by the approver with a valid action succeeds, overwriting
`status` and `responded_at`. -/
theorem respond_twice_crashes_or_overwrites :
    (∀ (db : DB) (cu : User) (aid : Nat) (a : TaskAssignment) (act : String)
      (msg rr : Option String) (now : Nat),
      findAssignment db aid = some a → a.assigned_to_id = cu.id →
      a.assignment_status ≠ .pending_acceptance →
      respond_to_assignment db cu aid act msg rr now =
        .error ⟨500, "AttributeError: PENDING_ACCEPTANCE"⟩) ∧
    (∀ (db : DB) (cu : User) (rid : Nat) (r : ApprovalRequest)
      (rmsg : Option String) (now : Nat),
      findApprovalRequest db rid = some r → r.approver_id = cu.id →
      isOkE (respond_to_approval_request db cu rid "approve" rmsg now) =
        true ∧
      (okVal (respond_to_approval_request db cu rid "approve" rmsg now)).map
        ApprovalRequest.responded_at = some (some now) ∧
      (okVal (respond_to_approval_request db cu rid "approve" rmsg now)).map
        ApprovalRequest.status = some .approved) := by
  constructor
  · intro db cu aid a act msg rr now hfind hto hst
    simp [respond_to_assignment, hfind, hto]
  · intro db cu rid r rmsg now hfind hap
    simp [respond_to_approval_request, hfind, hap, isOkE, okVal]

/-- Approval request already responded to (status `approved`,
`responded_at` stamped at instant 3), with approver user 2. -/
def rqC1 : ApprovalRequest :=
  { id := 1, requester_id := 1, approver_id := 2, title := "t",
    description := "d", request_type := .general, status := .approved,
    created_at := 0, updated_at := 3, responded_at := some 3,
    response_message := some "old" }

/-- Database for the C1 scenario: one already-approved request. -/
def dbC1 : DB := { emptyDB with approval_requests := [rqC1] }

/-- Task assignment already accepted, for the C1 witness. -/
def asgC1 : TaskAssignment :=
  { id := 1, task_id := 50, assigned_by_id := 1, assigned_to_id := 2,
    assignment_status := .accepted, assigned_at := 0, response_at := some 3,
    assignment_message := none, response_message := none,
    rejection_reason := none, call_requested := false,
    call_scheduled_at := none, call_completed_at := none, call_notes := none }

/-- Database with one already-accepted assignment, for the C1 witness. -/
def dbC1w : DB := { emptyDB with task_assignments := [asgC1] }

/-- Claim C1, counterexample to the claim as stated: request 1 was already
responded to (status `approved`, responded at 3), yet a second respond call
by the approver succeeds — no `InvalidState` — and overwrites
`responded_at`. -/
theorem second_response_accepted_by_approval_engine :
    rqC1.status ≠ .pending ∧
    isOkE (respond_to_approval_request dbC1 uBob 1 "approve" none 5) = true ∧
    (okVal (respond_to_approval_request dbC1 uBob 1 "approve" none 5)).map
      ApprovalRequest.responded_at = some (some 5) := by decide

/-- Claim C1, witness for the amended theorem at concrete inputs: the
assignment half on an already-accepted assignment (the call 500s — the
`AttributeError` crash, not an `InvalidState` rejection), the approval
half on the already-approved request (the second respond succeeds). -/
theorem second_response_guard_witness :
    (findAssignment dbC1w 1 = some asgC1 ∧ asgC1.assigned_to_id = uBob.id ∧
      asgC1.assignment_status ≠ .pending_acceptance ∧
      respond_to_assignment dbC1w uBob 1 "accept" none none 7 =
        .error ⟨500, "AttributeError: PENDING_ACCEPTANCE"⟩) ∧
    (findApprovalRequest dbC1 1 = some rqC1 ∧ rqC1.approver_id = uBob.id ∧
      (isOkE (respond_to_approval_request dbC1 uBob 1 "approve" none 5) =
          true ∧
        (okVal (respond_to_approval_request dbC1 uBob 1 "approve" none 5)).map
          ApprovalRequest.responded_at = some (some 5) ∧
        (okVal (respond_to_approval_request dbC1 uBob 1 "approve" none 5)).map
          ApprovalRequest.status = some .approved)) :=
  ⟨⟨by decide, by decide, by decide,
      respond_twice_crashes_or_overwrites.1 dbC1w uBob 1 asgC1
        "accept" none none 7 (by decide) (by decide) (by decide)⟩,
    ⟨by decide, by decide,
      respond_twice_crashes_or_overwrites.2 dbC1 uBob 1 rqC1
        none 5 (by decide) (by decide)⟩⟩

/-- Claim C8: in both engines only the counterpart may act — any other
actor gets 403 and, the error aborting the request before any commit, the
request row is untouched.  Holds for every action string, since the
identity check precedes action validation in both handlers. -/
theorem only_counterpart_may_respond :
    (∀ (db : DB) (cu : User) (aid : Nat) (a : TaskAssignment) (act : String)
      (msg rr : Option String) (now : Nat),
      findAssignment db aid = some a → a.assigned_to_id ≠ cu.id →
      respond_to_assignment db cu aid act msg rr now =
        .error ⟨403, "Not authorized to respond to this assignment"⟩) ∧
    (∀ (db : DB) (cu : User) (rid : Nat) (r : ApprovalRequest) (act : String)
      (rmsg : Option String) (now : Nat),
      findApprovalRequest db rid = some r → r.approver_id ≠ cu.id →
      respond_to_approval_request db cu rid act rmsg now =
        .error ⟨403, "Only the approver can respond to this request"⟩) := by
  constructor
  · intro db cu aid a act msg rr now hfind hto
    simp [respond_to_assignment, hfind, hto]
  · intro db cu rid r act rmsg now hfind hap
    simp [respond_to_approval_request, hfind, hap]

/-- Pending assignment to user 2, used by the C8 witness (actor is user 1,
who is not the counterpart). -/
def asgC8 : TaskAssignment :=
  { id := 1, task_id := 50, assigned_by_id := 1, assigned_to_id := 2,
    assignment_status := .pending_acceptance, assigned_at := 0,
    response_at := none, assignment_message := none,
    response_message := none, rejection_reason := none,
    call_requested := false, call_scheduled_at := none,
    call_completed_at := none, call_notes := none }

/-- Pending approval request with approver 2, for the C8 witness. -/
def rqC8 : ApprovalRequest :=
  { id := 1, requester_id := 1, approver_id := 2, title := "t",
    description := "d", request_type := .general, status := .pending,
    created_at := 0, updated_at := 0, responded_at := none,
    response_message := none }

/-- Database for the C8 witness. -/
def dbC8 : DB :=
  { emptyDB with task_assignments := [asgC8], approval_requests := [rqC8] }

/-- Claim C8, witness: user 1 (the initiator, not the counterpart) is
rejected with 403 by both engines. -/
theorem only_counterpart_may_respond_witness :
    (findAssignment dbC8 1 = some asgC8 ∧ asgC8.assigned_to_id ≠ uAlice.id ∧
      respond_to_assignment dbC8 uAlice 1 "accept" none none 7 =
        .error ⟨403, "Not authorized to respond to this assignment"⟩) ∧
    (findApprovalRequest dbC8 1 = some rqC8 ∧ rqC8.approver_id ≠ uAlice.id ∧
      respond_to_approval_request dbC8 uAlice 1 "approve" none 7 =
        .error ⟨403, "Only the approver can respond to this request"⟩) :=
  ⟨⟨by decide, by decide,
      only_counterpart_may_respond.1 dbC8 uAlice 1 asgC8 "accept" none none 7
        (by decide) (by decide)⟩,
    ⟨by decide, by decide,
      only_counterpart_may_respond.2 dbC8 uAlice 1 rqC8 "approve" none 7
        (by decide) (by decide)⟩⟩

/-- Claim C3 (amended): only the approval engine rejects an unmapped
action string with `InvalidState` (400, before any mutation — though it
never checks the current state).  The assignment engine never examines
the action at all: every counterpart call fails with 500 (the
`AttributeError` raised at the mis-cased status comparison of
task_management.py line 241) before the dispatch chain runs, persisting
nothing — so an unmapped action does fail without a state change, but
with a crash, not the claimed `InvalidState`. -/
theorem unmapped_action_divergence :
    (∀ (db : DB) (cu : User) (rid : Nat) (r : ApprovalRequest) (act : String)
      (rmsg : Option String) (now : Nat),
      findApprovalRequest db rid = some r → r.approver_id = cu.id →
      act ≠ "approve" → act ≠ "reject" → act ≠ "discussion" →
      respond_to_approval_request db cu rid act rmsg now =
        .error ⟨400,
          "Invalid action. Must be \x27approve\x27, \x27reject\x27, or \x27discussion\x27"⟩) ∧
    (∀ (db : DB) (cu : User) (aid : Nat) (a : TaskAssignment) (act : String)
      (msg rr : Option String) (now : Nat),
      findAssignment db aid = some a → a.assigned_to_id = cu.id →
      a.assignment_status = .pending_acceptance →
      act ≠ "accept" → act ≠ "reject" → act ≠ "discuss" →
      respond_to_assignment db cu aid act msg rr now =
        .error ⟨500, "AttributeError: PENDING_ACCEPTANCE"⟩) := by
  constructor
  · intro db cu rid r act rmsg now hfind hap h1 h2 h3
    simp [respond_to_approval_request, hfind, hap, h1, h2, h3]
  · intro db cu aid a act msg rr now hfind hto hst h1 h2 h3
    simp [respond_to_assignment, hfind, hto]

/-- Database for the C3 scenario: one pending assignment to user 2. -/
def dbC3 : DB := { emptyDB with task_assignments := [asgC8] }

/-- Claim C3, counterexample to the claim as stated: the unmapped action
"foo" on a pending assignment does not fail with `InvalidState` — the
call dies with the `AttributeError` 500 raised by the status guard of
task_management.py line 241, before the action is ever examined. -/
theorem unmapped_action_crashes_in_assignment_engine :
    respond_to_assignment dbC3 uBob 1 "foo" (some "hi") none 9 =
      .error ⟨500, "AttributeError: PENDING_ACCEPTANCE"⟩ := by decide

/-- Claim C3, witness for the amended theorem: the approval engine rejects
action "foo" with 400; the assignment engine crashes with 500 before
looking at it. -/
theorem unmapped_action_divergence_witness :
    (findApprovalRequest dbC8 1 = some rqC8 ∧ rqC8.approver_id = uBob.id ∧
      respond_to_approval_request dbC8 uBob 1 "foo" none 9 =
        .error ⟨400,
          "Invalid action. Must be \x27approve\x27, \x27reject\x27, or \x27discussion\x27"⟩) ∧
    (findAssignment dbC3 1 = some asgC8 ∧ asgC8.assigned_to_id = uBob.id ∧
      asgC8.assignment_status = .pending_acceptance ∧
      respond_to_assignment dbC3 uBob 1 "bar" (some "hi") none 9 =
        .error ⟨500, "AttributeError: PENDING_ACCEPTANCE"⟩) :=
  ⟨⟨by decide, by decide,
      unmapped_action_divergence.1 dbC8 uBob 1 rqC8 "foo" none 9
        (by decide) (by decide) (by decide) (by decide) (by decide)⟩,
    ⟨by decide, by decide, by decide,
      unmapped_action_divergence.2 dbC3 uBob 1 asgC8 "bar" (some "hi") none 9
        (by decide) (by decide) (by decide) (by decide) (by decide)
        (by decide)⟩⟩

/-! ## Self-negotiation guards (claim C10) -/

/-- Every persisted approval request names two different parties. -/
def approvalsDistinct (db : DB) : Prop :=
  ∀ r ∈ db.approval_requests, r.requester_id ≠ r.approver_id

/-- Every persisted chat conversation has two different participants. -/
def chatsDistinct (db : DB) : Prop :=
  ∀ c ∈ db.chat_conversations, c.participant1_id ≠ c.participant2_id

/-- Replacing a conversation row by one with distinct participants keeps
all participant pairs distinct. -/
lemma chatsDistinct_map_update (l : List ChatConversation) (k : Nat)
    (c2 : ChatConversation) (hne : c2.participant1_id ≠ c2.participant2_id)
    (h : ∀ x ∈ l, x.participant1_id ≠ x.participant2_id) :
    ∀ x ∈ l.map (fun y => if y.id == k then c2 else y),
      x.participant1_id ≠ x.participant2_id := by
  intro x hx
  rcases List.mem_map.mp hx with ⟨y, hy, rfl⟩
  by_cases hyc : y.id = k
  · simpa [hyc] using hne
  · simpa [hyc] using h y hy

/-- `get_conversation` (chat.py) only marks messages read: the conversation
table itself is returned unchanged. -/
lemma chat_get_conversation_conversations (db : DB) (cu : User)
    (cid now : Nat) (db2 : DB) (c : ChatConversation)
    (h : chat_get_conversation db cu cid now = .ok (db2, c)) :
    db2.chat_conversations = db.chat_conversations := by
  unfold chat_get_conversation at h
  cases h1 : findChatConversation db cid with
  | none => rw [h1] at h; simp at h
  | some conv =>
    rw [h1] at h
    by_cases h2 : conv.participant1_id = cu.id ∨ conv.participant2_id = cu.id
    · simp only [h2, not_true_eq_false, if_false] at h
      simp only [Except.ok.injEq, Prod.mk.injEq] at h
      obtain ⟨hdb2, -⟩ := h
      rw [← hdb2]
    · simp [h2] at h

/-- Claim C10: neither negotiation can be started against oneself —
`create_approval_request` fails whenever the chosen approver is the caller
(404 if the caller\x27s row is not an active user, else 400; either way no
record is persisted, the error aborting before any commit), and
`start_conversation` with the caller\x27s own id fails with 400; moreover
both operations preserve the invariants that every approval request has
`requester_id ≠ approver_id` and every chat conversation has two distinct
participants. -/
theorem no_self_negotiation :
    (∀ (db : DB) (cu : User) (t d : String) (rt : ApprovalRequestType)
      (now : Nat),
      isOkE (create_approval_request db cu cu.id t d rt now) = false) ∧
    (∀ (db : DB) (cu : User) (now : Nat),
      start_conversation db cu cu.id now =
        .error ⟨400, "Cannot start conversation with yourself"⟩) ∧
    (∀ (db db2 : DB) (cu : User) (aid : Nat) (t d : String)
      (rt : ApprovalRequestType) (now : Nat) (r : ApprovalRequest),
      approvalsDistinct db → chatsDistinct db →
      create_approval_request db cu aid t d rt now = .ok (db2, r) →
      approvalsDistinct db2 ∧ chatsDistinct db2) ∧
    (∀ (db db2 : DB) (cu : User) (uid now : Nat) (c : ChatConversation),
      chatsDistinct db →
      start_conversation db cu uid now = .ok (db2, c) →
      chatsDistinct db2) := by
  refine ⟨?_, ?_, ?_, ?_⟩
  · intro db cu t d rt now
    cases h : db.users.find? (fun u => u.id == cu.id && u.is_active) with
    | none => simp [create_approval_request, h, isOkE]
    | some ap => simp [create_approval_request, h, isOkE]
  · intro db cu now
    simp [start_conversation]
  · intro db db2 cu aid t d rt now r hA hC hok
    unfold create_approval_request at hok
    cases h1 : db.users.find? (fun u => u.id == aid && u.is_active) with
    | none => rw [h1] at hok; simp at hok
    | some ap =>
      rw [h1] at hok
      by_cases h2 : aid = cu.id
      · rw [if_pos h2] at hok; simp at hok
      · rw [if_neg h2] at hok
        simp only [updateChatConversation] at hok
        split at hok <;>
          rename_i hconv <;>
          simp only [Except.ok.injEq, Prod.mk.injEq] at hok <;>
          obtain ⟨hdb2, -⟩ := hok <;>
          subst hdb2 <;>
          constructor
        · intro x hx
          simp only [List.mem_append, List.mem_singleton] at hx
          rcases hx with hx | hx
          · exact hA x hx
          · subst hx; simpa using fun he => h2 he.symm
        · intro x hx
          simp only at hx
          refine chatsDistinct_map_update _ _ _ ?_ ?_ x hx
          · have hmem := List.mem_of_find?_eq_some hconv
            simpa using hC _ hmem
          · intro y hy; exact hC y hy
        · intro x hx
          simp only [List.mem_append, List.mem_singleton] at hx
          rcases hx with hx | hx
          · exact hA x hx
          · subst hx; simpa using fun he => h2 he.symm
        · intro x hx
          simp only at hx
          refine chatsDistinct_map_update _ _ _ ?_ ?_ x hx
          · simp only
            omega
          · intro y hy
            simp only [List.mem_append, List.mem_singleton] at hy
            rcases hy with hy | hy
            · exact hC y hy
            · subst hy; simp only; omega
  · intro db db2 cu uid now c hC hok
    unfold start_conversation at hok
    by_cases h0 : uid = cu.id
    · simp [h0] at hok
    · rw [if_neg h0] at hok
      cases h1 : findUser db uid with
      | none => rw [h1] at hok; simp at hok
      | some target =>
        rw [h1] at hok
        cases h2 : findChatConversationBetween db cu.id uid with
        | some ex =>
          rw [h2] at hok
          have hconvs := chat_get_conversation_conversations _ _ _ _ _ _ hok
          intro x hx
          rw [hconvs] at hx
          exact hC x hx
        | none =>
          rw [h2] at hok
          have hconvs := chat_get_conversation_conversations _ _ _ _ _ _ hok
          intro x hx
          rw [hconvs] at hx
          simp only [List.mem_append, List.mem_singleton] at hx
          rcases hx with hx | hx
          · exact hC x hx
          · subst hx; simp only; omega

/-- Database for the C10 invariant witness: no requests, no conversations
yet. -/
def dbC10 : DB := emptyDB

/-- The successful creation used by the C10 witness: user 1 asks approval
from user 2. -/
def crC10 : Except HError (DB × ApprovalRequest) :=
  create_approval_request dbC10 uAlice 2 "t" "d" .general 3

/-- The database committed by `crC10`. -/
def dbC10w : DB := (okDB crC10).getD dbC10

/-- The approval request row persisted by `crC10`. -/
def rqC10 : ApprovalRequest := (okVal crC10).getD rqC8

/-- Claim C10, witness: self-approval and self-conversation are refused on
the fixture database, and a genuine `create_approval_request` from user 1
to user 2 preserves both distinctness invariants. -/
theorem no_self_negotiation_witness :
    isOkE (create_approval_request dbC10 uAlice uAlice.id "t" "d" .general
      3) = false ∧
    start_conversation dbC10 uAlice uAlice.id 3 =
      .error ⟨400, "Cannot start conversation with yourself"⟩ ∧
    approvalsDistinct dbC10w ∧ chatsDistinct dbC10w := by
  have hA : approvalsDistinct dbC10 := by
    intro x hx; simp [dbC10, emptyDB] at hx
  have hC : chatsDistinct dbC10 := by
    intro x hx; simp [dbC10, emptyDB] at hx
  have hok : create_approval_request dbC10 uAlice 2 "t" "d" .general 3 =
      .ok (dbC10w, rqC10) := by
    set_option maxRecDepth 4096 in decide
  have h := no_self_negotiation.2.2.1 dbC10 dbC10w uAlice 2 "t" "d" .general
    3 rqC10 hA hC hok
  exact ⟨no_self_negotiation.1 dbC10 uAlice "t" "d" .general 3,
    no_self_negotiation.2.1 dbC10 uAlice 3, h.1, h.2⟩

/-! ## Duplicate-assignment guard (claim C5) -/

/-- The task used by the C5 scenarios: owned and created by user 1. -/
def tC5 : Task :=
  { id := 50, title := "T", owner_id := 1, created_by_id := 1,
    status := .new }

/-- Database with an open (pending) assignment of task 50 to user 2. -/
def dbC5open : DB :=
  { emptyDB with tasks := [tC5], task_assignments := [asgC8] }

/-- The same pair\x27s assignment after it resolved to `rejected`. -/
def asgC5r : TaskAssignment := { asgC8 with assignment_status := .rejected }

/-- Database where the pair\x27s only assignment is rejected. -/
def dbC5rej : DB :=
  { emptyDB with tasks := [tC5], task_assignments := [asgC5r] }

/-- Claim C5, failing inputs: the duplicate-assignment guard is written in
the source (task_management.py 45-59, with the open-status set the claim
names) but is never reached — building the guard\x27s filter evaluates
`models.TaskAssignmentStatus.PENDING_ACCEPTANCE` (line 51), which does not
exist on the lowercase-membered enum, so every permitted `assign_task`
call dies with `AttributeError` (500).  With the open pending assignment
the call does not fail with the claimed `Conflict`, and after the pair
resolves to `rejected` a new assignment still does not succeed: both
halves of the claim name behavior the program cannot exhibit, though the
code plainly intends it (tasks.py 130 spells the same member correctly). -/
theorem assign_task_always_crashes_at_guard :
    assign_task dbC5open uAlice 50 2 none 9 =
      .error ⟨500, "AttributeError: PENDING_ACCEPTANCE"⟩ ∧
    assign_task dbC5rej uAlice 50 2 none 9 =
      .error ⟨500, "AttributeError: PENDING_ACCEPTANCE"⟩ := by decide

/-! ## Notification durability (claim C6) -/

/-- Database for the C6 failing input: task 50 with a pending assignment
to user 2, no notifications yet. -/
def dbC6 : DB :=
  { emptyDB with tasks := [tC5], task_assignments := [asgC8] }

/-- Claim C6, failing input: the counterpart accepts a pending assignment
— the very flow whose notification the claim says is persisted and
retrievable.  The call never succeeds: line 241 of task_management.py
raises `AttributeError` (500) before the status guard, the dispatch and
the notification insert run, so no notification record ever exists to
retrieve.  The persisting code (lines 294-305) is unreachable, though it
plainly is the intent. -/
theorem respond_to_assignment_never_succeeds :
    respond_to_assignment dbC6 uBob 1 "accept" none none 9 =
      .error ⟨500, "AttributeError: PENDING_ACCEPTANCE"⟩ ∧
    get_task_notifications dbC6 1 false 50 = [] := by decide

/-! ## Conversation completion (claim C7) -/


/-- Fixture user 3, a stranger to every assignment. -/
def uCarol : User :=
  { id := 3, email := "carol@bwc.example", first_name := some "Carol",
    surname := some "Chloros", role := "user", is_active := true,
    is_online := false, last_seen := none }

/-- Assignment 1 (user 1 → user 2) sitting in `discussion_completed`. -/
def asgC7 : TaskAssignment :=
  { asgC8 with assignment_status := .discussion_completed }

/-- Conversation of assignment 1, already completed (by user 2 at 3). -/
def cvC7 : TaskConversation :=
  { id := 5, assignment_id := 1, status := .completed, created_at := 0,
    completed_at := some 3, completed_by_id := some 2 }

/-- Database for the C7 scenarios. -/
def dbC7 : DB :=
  { emptyDB with task_assignments := [asgC7], task_conversations := [cvC7] }

/-- Claim C7 (amended): only the 404/403 validation of
`complete_conversation` is operative — the caller must be the
assignment\x27s initiator or counterpart (403 otherwise, nothing
committed), and a conversation row must exist (404 otherwise).  Beyond
that, neither claimed effect happens: `complete` dies with 500 (the
`AttributeError` raised by `models.ConversationStatus.COMPLETED` at
task_management.py line 464) and `reopen` dies with 500 (`…ACTIVE`, line
481), each before any commit, so the conversation is never stamped and
the assignment never advances; an action outside complete/reopen commits
nothing and returns the conversation unchanged. -/
theorem complete_conversation_contract :
    (∀ (db : DB) (cu : User) (aid : Nat) (a : TaskAssignment) (act : String)
      (fm : Option String) (now : Nat),
      findAssignment db aid = some a →
      (findConversationByAssignment db aid).isSome = true →
      a.assigned_to_id ≠ cu.id → a.assigned_by_id ≠ cu.id →
      complete_conversation db cu aid act fm now =
        .error ⟨403, "Not authorized to complete this conversation"⟩) ∧
    (∀ (db : DB) (cu : User) (aid : Nat) (a : TaskAssignment)
      (c : TaskConversation) (fm : Option String) (now : Nat),
      findAssignment db aid = some a →
      findConversationByAssignment db aid = some c →
      (a.assigned_to_id = cu.id ∨ a.assigned_by_id = cu.id) →
      complete_conversation db cu aid "complete" fm now =
        .error ⟨500, "AttributeError: COMPLETED"⟩) ∧
    (∀ (db : DB) (cu : User) (aid : Nat) (a : TaskAssignment)
      (c : TaskConversation) (fm : Option String) (now : Nat),
      findAssignment db aid = some a →
      findConversationByAssignment db aid = some c →
      (a.assigned_to_id = cu.id ∨ a.assigned_by_id = cu.id) →
      complete_conversation db cu aid "reopen" fm now =
        .error ⟨500, "AttributeError: ACTIVE"⟩) := by
  refine ⟨?_, ?_, ?_⟩
  · intro db cu aid a act fm now hfA hfC hto hby
    cases hc : findConversationByAssignment db aid with
    | none => rw [hc] at hfC; simp at hfC
    | some c =>
      unfold complete_conversation
      simp only [hfA, hc]
      rw [if_pos (by simp [hto, hby])]
  · intro db cu aid a c fm now hfA hfC haccess
    unfold complete_conversation
    simp only [hfA, hfC]
    rw [if_neg (not_not_intro haccess)]
    simp only [if_true]
  · intro db cu aid a c fm now hfA hfC haccess
    unfold complete_conversation
    simp only [hfA, hfC]
    rw [if_neg (not_not_intro haccess),
      if_neg (by decide : ¬ ("reopen" = "complete"))]
    simp only [if_true]

/-- Claim C7, counterexample to the claim as stated: both parties are
allowed through the 403 check, a conversation row exists, yet `complete`
does not set the conversation to completed or advance the assignment —
it dies with the `AttributeError` 500 of task_management.py line 464,
committing nothing. -/
theorem complete_crashes_before_any_effect :
    complete_conversation dbC7 uBob 1 "complete" none 9 =
      .error ⟨500, "AttributeError: COMPLETED"⟩ := by decide

/-- Claim C7, witness: on the concrete database, a stranger is refused
with 403, while `complete` and `reopen` by a party both die with the
enum-access 500 before committing anything. -/
theorem complete_conversation_contract_witness :
    complete_conversation dbC7 uCarol 1 "complete" none 9 =
      .error ⟨403, "Not authorized to complete this conversation"⟩ ∧
    complete_conversation dbC7 uAlice 1 "complete" (some "bye") 9 =
      .error ⟨500, "AttributeError: COMPLETED"⟩ ∧
    complete_conversation dbC7 uBob 1 "reopen" none 9 =
      .error ⟨500, "AttributeError: ACTIVE"⟩ :=
  ⟨complete_conversation_contract.1 dbC7 uCarol 1 asgC7 "complete" none 9
      (by decide) (by decide) (by decide) (by decide),
    complete_conversation_contract.2.1 dbC7 uAlice 1 asgC7 cvC7 (some "bye")
      9 (by decide) (by decide) (by decide),
    complete_conversation_contract.2.2 dbC7 uBob 1 asgC7 cvC7 none 9
      (by decide) (by decide) (by decide)⟩

end BWC
